import Mathlib

/-!
Verification of the user-account lifecycle and credential-management
subsystem of the updatedStackOverflow repository (registration via email
verification, login, password reset, Google OAuth linking, per-user
settings mutation).

The repository ships the type declarations (`types.ts`) and the Jest test
suite of `userOperations.ts`; the operations module itself is not among
the shown sources, so the operations below are modelled from the
specification's algorithm descriptions (sections 4.1-4.7 of the spec),
with the exact user-facing messages fixed by the test suite.

External collaborators (the Mongo-backed stores, bcrypt, crypto, the mail
sender) are modelled as follows: the two stores are lists of records with
the atomic `findOne` / `findOneAndUpdate` / `findOneAndDelete` / `create`
operations defined on them; mechanical failures of any collaborator call
are injected through an `Env` record carrying, for each collaborator, an
optional internal error message (`some m` means "this call throws with
message `m`"); bcrypt's salted hash is modelled by an injective
deterministic function; `crypto.randomBytes` and `crypto.createHash` are
modelled by the `Env`-supplied strings `randomToken` and `digest`.
-/

namespace UserOps

/-- Per-user display settings (`SettingsInfo` in `types.ts`). -/
structure SettingsInfo where
  theme : String
  textSize : String
  textBoldness : String
  font : String
  lineSpacing : String
  backgroundColor : String
  textColor : String
  buttonColor : String
deriving Repr, DecidableEq

/-- An activated user record (`User` in `types.ts`).  Dates are modelled as
natural-number timestamps; the Mongo `_id` is presentational and omitted. -/
structure User where
  username : String
  email : String
  password : String
  creationDateTime : Nat
  settings : Option SettingsInfo := none
  resetPasswordToken : Option String := none
  resetPasswordExpires : Option Nat := none
  googleId : Option String := none
deriving Repr, DecidableEq

/-- A pending registration (`UnverifiedUser` in `types.ts`), keyed by the
email-verification token. -/
structure UnverifiedUser where
  username : String
  email : String
  password : String
  creationDateTime : Nat
  emailVerificationToken : String
  emailVerificationExpires : Nat
deriving Repr, DecidableEq

/-- Result type `UserResponse` from `types.ts`: a User on success or `{ error }`. -/
inductive UserResponse where
  | ok (u : User)
  | error (msg : String)
deriving Repr, DecidableEq

/-- Result type `EmailResponse` from `types.ts`: `{ emailRecipient }` or `{ error }`. -/
inductive EmailResponse where
  | emailRecipient (addr : String)
  | error (msg : String)
deriving Repr, DecidableEq

/-- The persistent state: the User store and the UnverifiedUser store. -/
structure AppState where
  users : List User
  unverified : List UnverifiedUser
deriving Repr, DecidableEq

/-- Modelled from the spec: `hash(plaintext) -> digest` of the credential
utilities (bcrypt, external to the shown sources), as an injective
deterministic function that never returns its argument unchanged. -/
def hashPassword (plain : String) : String :=
  "$2b$" ++ plain

/-- Modelled from the spec: `compare(plaintext, digest) -> bool` of the
credential utilities (bcrypt). -/
def comparePassword (plain digest : String) : Bool :=
  digest == hashPassword plain

/-- Environment of one operation call: for each external collaborator call,
`some m` injects a mechanical failure whose internal error text is `m`;
`randomToken` and `digest` are the values produced by `crypto.randomBytes`
(hex-encoded) and `crypto.createHash` when they succeed. -/
structure Env where
  randomToken : String := "cafebabe"
  digest : String := "0123456789abcdef"
  randomErr : Option String := none
  digestErr : Option String := none
  hashErr : Option String := none
  compareErr : Option String := none
  userFindErr : Option String := none
  userUpdateErr : Option String := none
  userCreateErr : Option String := none
  unverifiedCreateErr : Option String := none
  unverifiedDeleteErr : Option String := none
  mailErr : Option String := none
deriving Repr, DecidableEq

/-- An environment in which every collaborator call succeeds. -/
def cleanEnv : Env := {}

/-- Store primitive `findOne`: first record satisfying the predicate. -/
def findOne {α : Type} (p : α → Bool) (rs : List α) : Option α :=
  rs.find? p

/-- Store primitive `findOneAndUpdate`: atomically update the first record
satisfying the predicate, returning the updated document (or `none` when
there is no match) together with the new store contents. -/
def findOneAndUpdate {α : Type} (p : α → Bool) (f : α → α) :
    List α → Option α × List α
  | [] => (none, [])
  | r :: rs =>
    if p r then (some (f r), f r :: rs)
    else
      let (res, rs') := findOneAndUpdate p f rs
      (res, r :: rs')

/-- Store primitive `findOneAndDelete`: atomically remove the first record
satisfying the predicate, returning it (or `none`) and the new contents. -/
def findOneAndDelete {α : Type} (p : α → Bool) :
    List α → Option α × List α
  | [] => (none, [])
  | r :: rs =>
    if p r then (some r, rs)
    else
      let (res, rs') := findOneAndDelete p rs
      (res, r :: rs')

/-- The User store's uniqueness enforcement on `create` (spec section 3:
`username` and `email` are each globally unique): a duplicate-key failure
is raised when some stored User already holds the username or the email. -/
def duplicateUser (username email : String) (us : List User) : Bool :=
  us.any fun v => v.username == username || v.email == email

/-- Lifetime of an email-verification token (24 hours, in seconds). -/
def verificationLifetime : Nat := 86400

/-- Lifetime of a password-reset token (1 hour, in seconds). -/
def resetLifetime : Nat := 3600

/-- Modelled from the spec (section 4.3, `userOperations.ts` is not among
the shown sources): `loginUser(username, password)`.  Look up the User by
username (`none` -> "Username does not exist"); compare the plaintext
against the stored hash (mismatch -> "Incorrect password", match -> the
full record); any mechanical failure of the lookup or of the comparison is
converted to the generic "Error logging in user". -/
def loginUser (username password : String) (env : Env) (s : AppState) :
    UserResponse :=
  match env.userFindErr with
  | some _ => .error "Error logging in user"
  | none =>
    match findOne (fun u => u.username == username) s.users with
    | none => .error "Username does not exist"
    | some u =>
      match env.compareErr with
      | some _ => .error "Error logging in user"
      | none =>
        if comparePassword password u.password then .ok u
        else .error "Incorrect password"

/-- Modelled from the spec (section 4.1): `sendEmailVerification(candidate)`
(the spec's `requestVerification`).  (1) look up an activated User by
username, found -> "Username is already taken"; (2) hash the plaintext
password; (3) generate a random token; (4) create the UnverifiedUser
record expiring 24h from now; (5) send the verification email; (6) return
the recipient address.  Any step's mechanical failure short-circuits and
surfaces that step's own message (registration's failure policy is the
detailed one); a mail failure is reported but the created record remains. -/
def sendEmailVerification (candidate : User) (now : Nat) (env : Env)
    (s : AppState) : EmailResponse × AppState :=
  match env.userFindErr with
  | some m => (.error m, s)
  | none =>
    match findOne (fun u => u.username == candidate.username) s.users with
    | some _ => (.error "Username is already taken", s)
    | none =>
      match env.hashErr with
      | some m => (.error m, s)
      | none =>
        match env.randomErr with
        | some m => (.error m, s)
        | none =>
          match env.unverifiedCreateErr with
          | some m => (.error m, s)
          | none =>
            let pending : UnverifiedUser :=
              { username := candidate.username
                email := candidate.email
                password := hashPassword candidate.password
                creationDateTime := candidate.creationDateTime
                emailVerificationToken := env.randomToken
                emailVerificationExpires := now + verificationLifetime }
            let s' : AppState := { s with unverified := s.unverified ++ [pending] }
            match env.mailErr with
            | some m => (.error m, s')
            | none => (.emailRecipient candidate.email, s')

/-- Match condition of the atomic find-and-delete in `saveUser`: the
record holds this verification token and its expiry is still in the
future (the expiry check is part of the store query, per the spec). -/
def verificationTokenLive (token : String) (now : Nat) (r : UnverifiedUser) :
    Bool :=
  r.emailVerificationToken == token && decide (now < r.emailVerificationExpires)

/-- Modelled from the spec (section 4.2): `saveUser(token)` (the spec's
`activateUser`).  Atomically find-and-delete the UnverifiedUser whose
token matches and whose expiry is still in the future; a missing match
(absent or expired) -> "Email verification token is invalid or has
expired".  On a match, create an activated User copying all fields except
the token/expiry; a duplicate-key failure of the create -> "Username is
already taken"; any other mechanical failure (of the delete or of the
create) -> the generic "Error when creating a user". -/
def saveUser (token : String) (now : Nat) (env : Env) (s : AppState) :
    UserResponse × AppState :=
  match env.unverifiedDeleteErr with
  | some _ => (.error "Error when creating a user", s)
  | none =>
    match findOneAndDelete (verificationTokenLive token now) s.unverified with
    | (none, un') => (.error "Email verification token is invalid or has expired",
        { s with unverified := un' })
    | (some r, un') =>
      match env.userCreateErr with
      | some _ => (.error "Error when creating a user", { s with unverified := un' })
      | none =>
        if duplicateUser r.username r.email s.users then
          (.error "Username is already taken", { s with unverified := un' })
        else
          let u : User :=
            { username := r.username
              email := r.email
              password := r.password
              creationDateTime := r.creationDateTime }
          (.ok u, { users := s.users ++ [u], unverified := un' })

/-- Modelled from the spec (section 4.4): `sendPasswordReset(username)`
(the spec's `requestPasswordReset`).  Generate a token and a 1h expiry
(generation failure aborts before any store access, with a fixed message);
atomically find-and-update the User by username setting the reset fields
(`none` -> "Username does not exist", mechanical failure -> the fixed
"Error sending password reset email"); then send the reset mail (failure
-> the fixed "Error sending email", reported distinctly; the stored reset
fields remain). -/
def sendPasswordReset (username : String) (now : Nat) (env : Env)
    (s : AppState) : EmailResponse × AppState :=
  match env.randomErr with
  | some _ => (.error "Error generating random bytes", s)
  | none =>
    match env.userUpdateErr with
    | some _ => (.error "Error sending password reset email", s)
    | none =>
      match findOneAndUpdate (fun u => u.username == username)
          (fun u => { u with resetPasswordToken := some env.randomToken,
                             resetPasswordExpires := some (now + resetLifetime) })
          s.users with
      | (none, us') => (.error "Username does not exist", { s with users := us' })
      | (some u', us') =>
        match env.mailErr with
        | some _ => (.error "Error sending email", { s with users := us' })
        | none => (.emailRecipient u'.email, { s with users := us' })

/-- Match condition of the atomic find-and-update in `resetPassword`: the
User holds this reset token and its expiry is present and still in the
future (the liveness check is part of the store query, per the spec). -/
def resetTokenLive (token : String) (now : Nat) (u : User) : Bool :=
  u.resetPasswordToken == some token &&
    match u.resetPasswordExpires with
    | some e => decide (now < e)
    | none => false

/-- Modelled from the spec (section 4.5): `resetPassword(token, newPassword)`.
Hash the new password first: a hash failure aborts immediately with the
generic "Error resetting password" (intentionally coarser than
registration) before any store access.  Then atomically find-and-update
the User holding this reset token with a still-live expiry, setting the
new hash and clearing the reset fields; no match (bad, reused or expired
token) -> "Password reset token is invalid or has expired"; a mechanical
store failure -> the same generic "Error resetting password". -/
def resetPassword (token newPassword : String) (now : Nat) (env : Env)
    (s : AppState) : UserResponse × AppState :=
  match env.hashErr with
  | some _ => (.error "Error resetting password", s)
  | none =>
    let newHash := hashPassword newPassword
    match env.userUpdateErr with
    | some _ => (.error "Error resetting password", s)
    | none =>
      match findOneAndUpdate (resetTokenLive token now)
          (fun u => { u with password := newHash,
                             resetPasswordToken := none,
                             resetPasswordExpires := none })
          s.users with
      | (none, us') => (.error "Password reset token is invalid or has expired",
          { s with users := us' })
      | (some u', us') => (.ok u', { s with users := us' })

/-- Settings record with every field empty, used when a User's settings are
still absent and a single field is set (Mongo's nested `$set` creates the
embedded document). -/
def defaultSettings : SettingsInfo :=
  { theme := "", textSize := "", textBoldness := "", font := "",
    lineSpacing := "", backgroundColor := "", textColor := "",
    buttonColor := "" }

/-- Modelled from the spec (section 4.6): the uniform algorithm shared by
every per-field settings mutation.  Atomically find-and-update the
matching User's nested settings field; `none` -> "Username does not
exist"; any mechanical failure -> the operation's field-specific generic
message. -/
def changeSettingsField (username : String) (update : SettingsInfo → SettingsInfo)
    (errMsg : String) (env : Env) (s : AppState) : UserResponse × AppState :=
  match env.userUpdateErr with
  | some _ => (.error errMsg, s)
  | none =>
    match findOneAndUpdate (fun u => u.username == username)
        (fun u => { u with settings := some (update (u.settings.getD defaultSettings)) })
        s.users with
    | (none, us') => (.error "Username does not exist", { s with users := us' })
    | (some u', us') => (.ok u', { s with users := us' })

/-- Modelled from the spec (section 4.6): `changeTheme(username, theme)`. -/
def changeTheme (username theme : String) (env : Env) (s : AppState) :
    UserResponse × AppState :=
  changeSettingsField username (fun st => { st with theme := theme })
    "Error changing user theme" env s

/-- Modelled from the spec (section 4.6): `changeTextSize(username, textSize)`. -/
def changeTextSize (username textSize : String) (env : Env) (s : AppState) :
    UserResponse × AppState :=
  changeSettingsField username (fun st => { st with textSize := textSize })
    "Error changing user text size" env s

/-- Modelled from the spec (section 4.6): `changeTextBoldness(username,
textBoldness)`. -/
def changeTextBoldness (username textBoldness : String) (env : Env)
    (s : AppState) : UserResponse × AppState :=
  changeSettingsField username (fun st => { st with textBoldness := textBoldness })
    "Error changing user text boldness" env s

/-- Modelled from the spec (section 4.6): `changeFont(username, font)`. -/
def changeFont (username font : String) (env : Env) (s : AppState) :
    UserResponse × AppState :=
  changeSettingsField username (fun st => { st with font := font })
    "Error changing user font style" env s

/-- Modelled from the spec (section 4.6): `changeLineSpacing(username,
lineSpacing)`. -/
def changeLineSpacing (username lineSpacing : String) (env : Env)
    (s : AppState) : UserResponse × AppState :=
  changeSettingsField username (fun st => { st with lineSpacing := lineSpacing })
    "Error changing user line spacing" env s

/-- The local part of an email address (the part before the `@`), used to
derive a username for an OAuth-created account. -/
def localPart (email : String) : String :=
  String.mk (email.data.takeWhile fun c => c != '@')

/-- First six characters of a digest, the short discriminator appended to
the derived username of an OAuth-created account. -/
def shortDiscriminator (digest : String) : String :=
  String.mk (digest.data.take 6)

/-- Modelled from the spec (section 4.7): `findOrSaveGoogleUser(googleId,
email)` (the spec's `findOrCreateGoogleUser`).  Look up an existing User
by Google identity and return it unchanged when found.  Otherwise derive
a username from the email's local part plus a short discriminator taken
from a deterministic hash, derive a password placeholder from random
bytes, and create a new User carrying the Google identity.  Any lookup,
derivation, or create failure (duplicate key included) collapses to the
single generic "Error when retrieving or creating a Google user". -/
def findOrSaveGoogleUser (googleId email : String) (now : Nat) (env : Env)
    (s : AppState) : UserResponse × AppState :=
  match env.userFindErr with
  | some _ => (.error "Error when retrieving or creating a Google user", s)
  | none =>
    match findOne (fun u => u.googleId == some googleId) s.users with
    | some u => (.ok u, s)
    | none =>
      match env.randomErr with
      | some _ => (.error "Error when retrieving or creating a Google user", s)
      | none =>
        match env.digestErr with
        | some _ => (.error "Error when retrieving or creating a Google user", s)
        | none =>
          let username := localPart email ++ "_" ++ shortDiscriminator env.digest
          match env.userCreateErr with
          | some _ => (.error "Error when retrieving or creating a Google user", s)
          | none =>
            if duplicateUser username email s.users then
              (.error "Error when retrieving or creating a Google user", s)
            else
              let u : User :=
                { username := username
                  email := email
                  password := env.randomToken
                  creationDateTime := now
                  googleId := some googleId }
              (.ok u, { s with users := s.users ++ [u] })

/-! ### Helper lemmas about the credential utilities and store primitives -/

theorem hashPassword_inj {a b : String} (h : hashPassword a = hashPassword b) :
    a = b := by
  have hd := congrArg String.data h
  simp only [hashPassword, String.data_append] at hd
  exact String.ext (List.append_cancel_left hd)

theorem findOne_eq_none {α : Type} {p : α → Bool} {rs : List α}
    (h : ∀ r ∈ rs, p r = false) : findOne p rs = none := by
  rw [findOne, List.find?_eq_none]
  intro x hx
  simp [h x hx]

theorem findOne_append_right {α : Type} {p : α → Bool} {l₁ : List α}
    (l₂ : List α) (h : ∀ x ∈ l₁, p x = false) :
    findOne p (l₁ ++ l₂) = findOne p l₂ := by
  induction l₁ with
  | nil => rfl
  | cons x xs ih =>
    have hx : p x = false := h x (by simp)
    simp only [List.cons_append, findOne, List.find?_cons, hx]
    exact ih fun y hy => h y (by simp [hy])

theorem findOne_cons_pos {α : Type} {p : α → Bool} {r : α} (rs : List α)
    (h : p r = true) : findOne p (r :: rs) = some r := by
  simp [findOne, List.find?_cons, h]

theorem findOneAndUpdate_eq_none {α : Type} (p : α → Bool) (f : α → α)
    {rs : List α} (h : ∀ r ∈ rs, p r = false) :
    findOneAndUpdate p f rs = (none, rs) := by
  induction rs with
  | nil => rfl
  | cons r rs ih =>
    have hr : p r = false := h r (by simp)
    simp [findOneAndUpdate, hr, ih fun x hx => h x (by simp [hx])]

theorem findOneAndUpdate_found {α : Type} (p : α → Bool) (f : α → α)
    (l₁ : List α) (r : α) (l₂ : List α)
    (h₁ : ∀ x ∈ l₁, p x = false) (hr : p r = true) :
    findOneAndUpdate p f (l₁ ++ r :: l₂) = (some (f r), l₁ ++ f r :: l₂) := by
  induction l₁ with
  | nil => simp [findOneAndUpdate, hr]
  | cons x xs ih =>
    have hx : p x = false := h₁ x (by simp)
    simp [findOneAndUpdate, hx, ih fun y hy => h₁ y (by simp [hy])]

theorem findOneAndDelete_eq_none {α : Type} {p : α → Bool} {rs : List α}
    (h : ∀ r ∈ rs, p r = false) : findOneAndDelete p rs = (none, rs) := by
  induction rs with
  | nil => rfl
  | cons r rs ih =>
    have hr : p r = false := h r (by simp)
    simp [findOneAndDelete, hr, ih fun x hx => h x (by simp [hx])]

theorem findOneAndDelete_found {α : Type} (p : α → Bool)
    (l₁ : List α) (r : α) (l₂ : List α)
    (h₁ : ∀ x ∈ l₁, p x = false) (hr : p r = true) :
    findOneAndDelete p (l₁ ++ r :: l₂) = (some r, l₁ ++ l₂) := by
  induction l₁ with
  | nil => simp [findOneAndDelete, hr]
  | cons x xs ih =>
    have hx : p x = false := h₁ x (by simp)
    simp [findOneAndDelete, hx, ih fun y hy => h₁ y (by simp [hy])]

theorem findOneAndDelete_eq_some {α : Type} {p : α → Bool} {rs rs' : List α}
    {r : α} (h : findOneAndDelete p rs = (some r, rs')) :
    ∃ l₁ l₂, rs = l₁ ++ r :: l₂ ∧ rs' = l₁ ++ l₂ ∧ p r = true ∧
      ∀ x ∈ l₁, p x = false := by
  induction rs generalizing rs' with
  | nil => simp [findOneAndDelete] at h
  | cons x xs ih =>
    by_cases hx : p x
    · rw [findOneAndDelete, if_pos hx] at h
      obtain ⟨h1, h2⟩ := Prod.mk.injEq .. ▸ h
      obtain rfl : x = r := Option.some.inj h1
      exact ⟨[], xs, rfl, by simp [h2], hx, by simp⟩
    · rw [findOneAndDelete, if_neg hx] at h
      rcases hfd : findOneAndDelete p xs with ⟨res, rs₀⟩
      rw [hfd] at h
      obtain ⟨h1, h2⟩ := Prod.mk.injEq .. ▸ h
      obtain ⟨l₁, l₂, e1, e2, e3, e4⟩ := ih (by rw [hfd, h1])
      refine ⟨x :: l₁, l₂, by simp [e1], by simp [← h2, e2], e3, ?_⟩
      intro y hy
      rcases List.mem_cons.mp hy with rfl | hy'
      · exact Bool.eq_false_iff.mpr hx
      · exact e4 y hy'

/-! ### Shared concrete fixtures used by witnesses -/

/-- A demo activated user, mirroring the test suite's `mockUser`. -/
def demoUser : User :=
  { username := "fakeUser", email := "fakeEmail@email.com",
    password := hashPassword "fakepassword", creationDateTime := 100 }

/-- A demo store holding exactly the demo user and no pending registration. -/
def demoState : AppState := { users := [demoUser], unverified := [] }

/-! ### The claims -/

/-- C1: for every username with no matching record in the User store,
`loginUser` returns the failure "Username does not exist"; for every
stored user, login with a password whose comparison against the stored
hash yields a mismatch returns "Incorrect password"; and login with the
matching password returns the full stored User record. -/
theorem loginUser_cases (w pw : String) (env : Env) (s : AppState)
    (hfind : env.userFindErr = none) (hcmp : env.compareErr = none) :
    ((∀ v ∈ s.users, (v.username == w) = false) →
      loginUser w pw env s = .error "Username does not exist") ∧
    (∀ u, findOne (fun v => v.username == w) s.users = some u →
      (comparePassword pw u.password = false →
        loginUser w pw env s = .error "Incorrect password") ∧
      (comparePassword pw u.password = true →
        loginUser w pw env s = .ok u)) := by
  constructor
  · intro hnone
    have hfo : findOne (fun v => v.username == w) s.users = none :=
      findOne_eq_none hnone
    simp [loginUser, hfind, hfo]
  · intro u hu
    constructor <;> intro hc <;> simp [loginUser, hfind, hcmp, hu, hc]

/-- Witness for C1 at the demo store: an unknown username, a wrong
password, and the matching password. -/
theorem loginUser_cases_witness :
    loginUser "nobody" "x" cleanEnv demoState = .error "Username does not exist" ∧
    loginUser "fakeUser" "wrong" cleanEnv demoState = .error "Incorrect password" ∧
    loginUser "fakeUser" "fakepassword" cleanEnv demoState = .ok demoUser := by
  refine ⟨?_, ?_, ?_⟩
  · exact (loginUser_cases "nobody" "x" cleanEnv demoState rfl rfl).1
      (by decide)
  · exact ((loginUser_cases "fakeUser" "wrong" cleanEnv demoState rfl rfl).2
      demoUser (by decide)).1 (by decide)
  · exact ((loginUser_cases "fakeUser" "fakepassword" cleanEnv demoState rfl rfl).2
      demoUser (by decide)).2 (by decide)

/-- C2: every mechanical collaborator failure inside a security-sensitive
operation (login, password reset request, password reset completion)
yields a fixed generic message that does not depend on the collaborator's
internal error text `m`: the lookup or comparison failing in `loginUser`
-> "Error logging in user"; token generation, the store update, or the
mail send failing in `sendPasswordReset` -> "Error generating random
bytes" / "Error sending password reset email" / "Error sending email";
hashing or the store update failing in `resetPassword` -> "Error
resetting password".  Each right-hand side is a literal constant, so the
internal text `m` never reaches the caller. -/
theorem securityOps_never_leak (w pw tok np m : String) (now : Nat)
    (env : Env) (s : AppState) :
    (env.userFindErr = some m →
      loginUser w pw env s = .error "Error logging in user") ∧
    (env.userFindErr = none → env.compareErr = some m →
      ∀ u, findOne (fun v => v.username == w) s.users = some u →
        loginUser w pw env s = .error "Error logging in user") ∧
    (env.randomErr = some m →
      (sendPasswordReset w now env s).1 = .error "Error generating random bytes") ∧
    (env.randomErr = none → env.userUpdateErr = some m →
      (sendPasswordReset w now env s).1 = .error "Error sending password reset email") ∧
    (env.randomErr = none → env.userUpdateErr = none → env.mailErr = some m →
      ∀ u' us', findOneAndUpdate (fun u => u.username == w)
          (fun u => { u with resetPasswordToken := some env.randomToken,
                             resetPasswordExpires := some (now + resetLifetime) })
          s.users = (some u', us') →
        (sendPasswordReset w now env s).1 = .error "Error sending email") ∧
    (env.hashErr = some m →
      (resetPassword tok np now env s).1 = .error "Error resetting password") ∧
    (env.hashErr = none → env.userUpdateErr = some m →
      (resetPassword tok np now env s).1 = .error "Error resetting password") := by
  refine ⟨?_, ?_, ?_, ?_, ?_, ?_, ?_⟩
  · intro h; simp [loginUser, h]
  · intro h1 h2 u hu; simp [loginUser, h1, h2, hu]
  · intro h; simp [sendPasswordReset, h]
  · intro h1 h2; simp [sendPasswordReset, h1, h2]
  · intro h1 h2 h3 u' us' hfu; simp [sendPasswordReset, h1, h2, h3, hfu]
  · intro h; simp [resetPassword, h]
  · intro h1 h2; simp [resetPassword, h1, h2]

/-- Witness for C2: concrete mechanical failures, each carrying the
internal text "backend exploded", with the fixed messages coming out. -/
theorem securityOps_never_leak_witness :
    loginUser "fakeUser" "pw" { cleanEnv with userFindErr := some "backend exploded" }
      demoState = .error "Error logging in user" ∧
    (sendPasswordReset "fakeUser" 0 { cleanEnv with userUpdateErr := some "backend exploded" }
      demoState).1 = .error "Error sending password reset email" ∧
    (resetPassword "t" "np" 0 { cleanEnv with hashErr := some "backend exploded" }
      demoState).1 = .error "Error resetting password" := by
  refine ⟨?_, ?_, ?_⟩
  · exact (securityOps_never_leak "fakeUser" "pw" "t" "np" "backend exploded" 0
      { cleanEnv with userFindErr := some "backend exploded" } demoState).1 rfl
  · exact (securityOps_never_leak "fakeUser" "pw" "t" "np" "backend exploded" 0
      { cleanEnv with userUpdateErr := some "backend exploded" } demoState).2.2.2.1 rfl rfl
  · exact (securityOps_never_leak "fakeUser" "pw" "t" "np" "backend exploded" 0
      { cleanEnv with hashErr := some "backend exploded" } demoState).2.2.2.2.2.1 rfl

/-- C3: `saveUser` with a token matching no stored UnverifiedUser (absent
or expired alike) returns the single failure "Email verification token is
invalid or has expired"; when the matched record's conversion into a User
hits the store's duplicate-key failure it returns "Username is already
taken"; and any other failure of the create step returns the generic
"Error when creating a user". -/
theorem saveUser_cases (tok : String) (now : Nat) (env : Env) (s : AppState)
    (hdel : env.unverifiedDeleteErr = none) :
    ((∀ r ∈ s.unverified, verificationTokenLive tok now r = false) →
      (saveUser tok now env s).1 =
        .error "Email verification token is invalid or has expired") ∧
    (∀ r un', findOneAndDelete (verificationTokenLive tok now) s.unverified
        = (some r, un') →
      (env.userCreateErr = none → duplicateUser r.username r.email s.users = true →
        (saveUser tok now env s).1 = .error "Username is already taken") ∧
      (∀ m, env.userCreateErr = some m →
        (saveUser tok now env s).1 = .error "Error when creating a user")) := by
  constructor
  · intro hnone
    have hfd := findOneAndDelete_eq_none hnone
    simp [saveUser, hdel, hfd]
  · intro r un' hfd
    constructor
    · intro hc hdup
      simp [saveUser, hdel, hfd, hc, hdup]
    · intro m hc
      simp [saveUser, hdel, hfd, hc]

/-- A demo pending registration whose username collides with the demo
activated user, used to exercise the duplicate-key branch. -/
def demoPending : UnverifiedUser :=
  { username := "fakeUser", email := "fakeEmail@email.com",
    password := hashPassword "fakepassword", creationDateTime := 100,
    emailVerificationToken := "tokA", emailVerificationExpires := 1000 }

/-- Demo store holding the demo user and the colliding pending record. -/
def demoStateP : AppState := { users := [demoUser], unverified := [demoPending] }

/-- Witness for C3: an absent token, an expired token, the duplicate-key
create failure, and a mechanical create failure, at concrete stores. -/
theorem saveUser_cases_witness :
    (saveUser "missing" 0 cleanEnv demoStateP).1 =
      .error "Email verification token is invalid or has expired" ∧
    (saveUser "tokA" 2000 cleanEnv demoStateP).1 =
      .error "Email verification token is invalid or has expired" ∧
    (saveUser "tokA" 500 cleanEnv demoStateP).1 = .error "Username is already taken" ∧
    (saveUser "tokA" 500 { cleanEnv with userCreateErr := some "io failure" }
      demoStateP).1 = .error "Error when creating a user" := by
  refine ⟨?_, ?_, ?_, ?_⟩
  · exact (saveUser_cases "missing" 0 cleanEnv demoStateP rfl).1 (by decide)
  · exact (saveUser_cases "tokA" 2000 cleanEnv demoStateP rfl).1 (by decide)
  · exact ((saveUser_cases "tokA" 500 cleanEnv demoStateP rfl).2 demoPending []
      (by decide)).1 rfl (by decide)
  · exact ((saveUser_cases "tokA" 500
      { cleanEnv with userCreateErr := some "io failure" } demoStateP rfl).2
      demoPending [] (by decide)).2 "io failure" rfl

/-- C10: when the atomic find-and-delete inside `saveUser` fails
mechanically (the store call throws rather than returning no match), the
operation returns "Error when creating a user" with the state untouched —
the very message of a create-step failure, so a caller cannot tell a
token-lookup backend failure from a user-creation failure apart. -/
theorem saveUser_deleteFailure_generic (tok m : String) (now : Nat)
    (env : Env) (s : AppState) (h : env.unverifiedDeleteErr = some m) :
    saveUser tok now env s = (.error "Error when creating a user", s) := by
  simp [saveUser, h]

/-- Witness for C10: a concrete failing store call, whose result carries
the create-step message. -/
theorem saveUser_deleteFailure_generic_witness :
    saveUser "tokA" 500 { cleanEnv with unverifiedDeleteErr := some "socket hangup" }
      demoStateP = (.error "Error when creating a user", demoStateP) :=
  saveUser_deleteFailure_generic "tokA" "socket hangup" 500
    { cleanEnv with unverifiedDeleteErr := some "socket hangup" } demoStateP rfl

/-- C8: each per-field settings mutation (`changeTheme`, `changeTextSize`,
`changeTextBoldness`, `changeFont`, `changeLineSpacing`), given a username
matching no User, returns "Username does not exist" and leaves the whole
state (every record of the User store included) unchanged; and under any
other failure of the update it returns its field-specific generic
message. -/
theorem changeSettings_notFound_frame (w v : String) (env : Env) (s : AppState)
    (hupd : env.userUpdateErr = none)
    (hnone : ∀ x ∈ s.users, (x.username == w) = false) :
    changeTheme w v env s = (.error "Username does not exist", s) ∧
    changeTextSize w v env s = (.error "Username does not exist", s) ∧
    changeTextBoldness w v env s = (.error "Username does not exist", s) ∧
    changeFont w v env s = (.error "Username does not exist", s) ∧
    changeLineSpacing w v env s = (.error "Username does not exist", s) ∧
    (∀ m (env' : Env), env'.userUpdateErr = some m →
      (changeTheme w v env' s).1 = .error "Error changing user theme" ∧
      (changeTextSize w v env' s).1 = .error "Error changing user text size" ∧
      (changeTextBoldness w v env' s).1 = .error "Error changing user text boldness" ∧
      (changeFont w v env' s).1 = .error "Error changing user font style" ∧
      (changeLineSpacing w v env' s).1 = .error "Error changing user line spacing") := by
  have hfu : ∀ f : User → User, findOneAndUpdate (fun u => u.username == w) f s.users
      = (none, s.users) := fun f => findOneAndUpdate_eq_none _ f hnone
  refine ⟨?_, ?_, ?_, ?_, ?_, ?_⟩
  · simp [changeTheme, changeSettingsField, hupd, hfu]
  · simp [changeTextSize, changeSettingsField, hupd, hfu]
  · simp [changeTextBoldness, changeSettingsField, hupd, hfu]
  · simp [changeFont, changeSettingsField, hupd, hfu]
  · simp [changeLineSpacing, changeSettingsField, hupd, hfu]
  · intro m env' h
    refine ⟨?_, ?_, ?_, ?_, ?_⟩ <;>
      simp [changeTheme, changeTextSize, changeTextBoldness, changeFont,
        changeLineSpacing, changeSettingsField, h]

/-- Witness for C8: the five mutations on a username absent from the demo
store, plus one mechanical failure. -/
theorem changeSettings_notFound_frame_witness :
    changeTheme "nobody" "dark" cleanEnv demoState
      = (.error "Username does not exist", demoState) ∧
    changeLineSpacing "nobody" "1.5" cleanEnv demoState
      = (.error "Username does not exist", demoState) ∧
    (changeFont "nobody" "Arial" { cleanEnv with userUpdateErr := some "db down" }
      demoState).1 = .error "Error changing user font style" := by
  have h := changeSettings_notFound_frame "nobody" "dark" cleanEnv demoState rfl
    (by decide)
  have h' := changeSettings_notFound_frame "nobody" "1.5" cleanEnv demoState rfl
    (by decide)
  have h'' := changeSettings_notFound_frame "nobody" "Arial" cleanEnv demoState rfl
    (by decide)
  exact ⟨h.1, h'.2.2.2.2.1,
    (h''.2.2.2.2.2 "db down" { cleanEnv with userUpdateErr := some "db down" } rfl).2.2.2.1⟩

/-- C9: `resetPassword` hashes before any store access — a hash failure
returns the generic "Error resetting password" (a constant independent of
the hash backend's own message) with the state untouched; and with the
store reachable, a token that is live for no stored user yields exactly
"Password reset token is invalid or has expired", again with the store
untouched. -/
theorem resetPassword_hashFirst_tokenInvalid (tok np : String) (now : Nat)
    (env : Env) (s : AppState) :
    (∀ m, env.hashErr = some m →
      resetPassword tok np now env s = (.error "Error resetting password", s)) ∧
    (env.hashErr = none → env.userUpdateErr = none →
      (∀ u ∈ s.users, resetTokenLive tok now u = false) →
      resetPassword tok np now env s
        = (.error "Password reset token is invalid or has expired", s)) := by
  constructor
  · intro m h
    simp [resetPassword, h]
  · intro h1 h2 hnone
    have hfu := findOneAndUpdate_eq_none (resetTokenLive tok now) (fun u =>
      { u with password := hashPassword np, resetPasswordToken := none,
               resetPasswordExpires := none }) hnone
    simp [resetPassword, h1, h2, hfu]

/-- Witness for C9: a concrete hash failure and a concrete unknown token
on the demo store. -/
theorem resetPassword_hashFirst_tokenInvalid_witness :
    resetPassword "t" "np" 0 { cleanEnv with hashErr := some "bcrypt oom" } demoState
      = (.error "Error resetting password", demoState) ∧
    resetPassword "unknownTok" "np" 0 cleanEnv demoState
      = (.error "Password reset token is invalid or has expired", demoState) := by
  constructor
  · exact (resetPassword_hashFirst_tokenInvalid "t" "np" 0
      { cleanEnv with hashErr := some "bcrypt oom" } demoState).1 "bcrypt oom" rfl
  · exact (resetPassword_hashFirst_tokenInvalid "unknownTok" "np" 0 cleanEnv
      demoState).2 rfl rfl (by decide)

/-- An activated user holding the email address that the C4 counterexample's
candidate also wants. -/
def sharedEmailUser : User :=
  { username := "other", email := "shared@email.com",
    password := hashPassword "x", creationDateTime := 1 }

/-- Store containing only `sharedEmailUser`. -/
def sharedEmailState : AppState := { users := [sharedEmailUser], unverified := [] }

/-- A registration candidate whose username is fresh but whose email
already belongs to `sharedEmailUser`. -/
def freshNameCand : User :=
  { username := "fresh", email := "shared@email.com", password := "pw",
    creationDateTime := 2 }

/-- Counterexample to C4 as stated: the candidate's username is taken by
no activated User, the registration request succeeds, yet activation with
the issued token fails — the User store enforces uniqueness of the email
too, and the candidate's email already belongs to an activated User, so
the create step raises a duplicate-key failure and the flow ends in
"Username is already taken" instead of a success User. -/
theorem registrationActivation_counterexample :
    (∀ x ∈ sharedEmailState.users, x.username ≠ freshNameCand.username) ∧
    (sendEmailVerification freshNameCand 0 cleanEnv sharedEmailState).1
      = .emailRecipient "shared@email.com" ∧
    (saveUser cleanEnv.randomToken 0 cleanEnv
      (sendEmailVerification freshNameCand 0 cleanEnv sharedEmailState).2).1
      = .error "Username is already taken" := by decide

/-- C4 (amended): for every registration candidate whose username AND
email are each free of the activated-User store, `sendEmailVerification`
followed immediately by `saveUser` with the token issued by that
registration returns a success User whose username, email, and creation
time equal the original candidate's.  (The issued token is additionally
assumed fresh — held by no pending registration — as randomness
guarantees.) -/
theorem registrationActivation_roundtrip
    (cand : User) (now : Nat) (env₁ env₂ : Env) (s : AppState)
    (hname : ∀ x ∈ s.users, (x.username == cand.username) = false)
    (hemail : ∀ x ∈ s.users, (x.email == cand.email) = false)
    (hfresh : ∀ r ∈ s.unverified,
      (r.emailVerificationToken == env₁.randomToken) = false)
    (h1 : env₁.userFindErr = none) (h2 : env₁.hashErr = none)
    (h3 : env₁.randomErr = none) (h4 : env₁.unverifiedCreateErr = none)
    (h5 : env₁.mailErr = none)
    (h6 : env₂.unverifiedDeleteErr = none) (h7 : env₂.userCreateErr = none) :
    (sendEmailVerification cand now env₁ s).1 = .emailRecipient cand.email ∧
    ∃ u, (saveUser env₁.randomToken now env₂
        (sendEmailVerification cand now env₁ s).2).1 = .ok u ∧
      u.username = cand.username ∧ u.email = cand.email ∧
      u.creationDateTime = cand.creationDateTime := by
  have hfo : findOne (fun u => u.username == cand.username) s.users = none :=
    findOne_eq_none hname
  have hsend : sendEmailVerification cand now env₁ s =
      (.emailRecipient cand.email,
        { s with unverified := s.unverified ++
            [{ username := cand.username, email := cand.email,
               password := hashPassword cand.password,
               creationDateTime := cand.creationDateTime,
               emailVerificationToken := env₁.randomToken,
               emailVerificationExpires := now + verificationLifetime }] }) := by
    simp [sendEmailVerification, h1, h2, h3, h4, h5, hfo]
  have hpred : ∀ r ∈ s.unverified,
      verificationTokenLive env₁.randomToken now r = false := by
    intro r hr
    simp [verificationTokenLive, hfresh r hr]
  have hlive : verificationTokenLive env₁.randomToken now
      { username := cand.username, email := cand.email,
        password := hashPassword cand.password,
        creationDateTime := cand.creationDateTime,
        emailVerificationToken := env₁.randomToken,
        emailVerificationExpires := now + verificationLifetime } = true := by
    simp [verificationTokenLive, verificationLifetime]
  have hfd := findOneAndDelete_found (verificationTokenLive env₁.randomToken now)
    s.unverified
    { username := cand.username, email := cand.email,
      password := hashPassword cand.password,
      creationDateTime := cand.creationDateTime,
      emailVerificationToken := env₁.randomToken,
      emailVerificationExpires := now + verificationLifetime } [] hpred hlive
  have hdup : duplicateUser cand.username cand.email s.users = false := by
    rw [duplicateUser, List.any_eq_false]
    intro x hx
    simp [hname x hx, hemail x hx]
  refine ⟨by rw [hsend], ?_⟩
  refine Exists.intro ({ username := cand.username, email := cand.email, password := hashPassword cand.password, creationDateTime := cand.creationDateTime } : User) ⟨?_, rfl, rfl, rfl⟩
  rw [hsend]
  simp [saveUser, h6, h7, hfd, hdup]

/-- A fresh registration candidate against the demo store, used by the C4
witness. -/
def demoCandidate : User :=
  { username := "newUser", email := "new@e.com", password := "pw",
    creationDateTime := 5 }

/-- Witness for C4 (amended): a concrete fresh candidate registered and
activated against the demo store. -/
theorem registrationActivation_roundtrip_witness :
    (sendEmailVerification demoCandidate 77 cleanEnv demoState).1
      = .emailRecipient demoCandidate.email ∧
    ∃ u, (saveUser cleanEnv.randomToken 77 cleanEnv
        (sendEmailVerification demoCandidate 77 cleanEnv demoState).2).1 = .ok u ∧
      u.username = demoCandidate.username ∧ u.email = demoCandidate.email ∧
      u.creationDateTime = demoCandidate.creationDateTime :=
  registrationActivation_roundtrip demoCandidate 77 cleanEnv cleanEnv demoState
    (by decide) (by decide) (by decide) rfl rfl rfl rfl rfl rfl rfl

/-- C5: for a stored user `u` (the first store entry carrying its
username, its password hash being that of `oldPw`), `sendPasswordReset`
followed by `resetPassword` with the issued token and a different new
plaintext changes the stored hash so that login with the old plaintext
now returns "Incorrect password" while login with the new plaintext
succeeds.  (The issued token is assumed fresh — held by no stored user —
as randomness guarantees.) -/
theorem resetFlow_changesPassword
    (w oldPw newPw : String) (now : Nat) (env₁ env₂ envL : Env)
    (l₁ l₂ : List User) (u : User) (s : AppState)
    (hs : s.users = l₁ ++ u :: l₂)
    (hpre : ∀ x ∈ l₁, (x.username == w) = false)
    (hu : u.username = w)
    (_hpw : u.password = hashPassword oldPw)
    (hne : newPw ≠ oldPw)
    (hfresh : ∀ x ∈ s.users, (x.resetPasswordToken == some env₁.randomToken) = false)
    (e1 : env₁.randomErr = none) (e2 : env₁.userUpdateErr = none)
    (e3 : env₁.mailErr = none)
    (e4 : env₂.hashErr = none) (e5 : env₂.userUpdateErr = none)
    (e6 : envL.userFindErr = none) (e7 : envL.compareErr = none) :
    (sendPasswordReset w now env₁ s).1 = .emailRecipient u.email ∧
    (resetPassword env₁.randomToken newPw now env₂
        (sendPasswordReset w now env₁ s).2).1
      = .ok { u with password := hashPassword newPw,
                     resetPasswordToken := none, resetPasswordExpires := none } ∧
    loginUser w oldPw envL (resetPassword env₁.randomToken newPw now env₂
        (sendPasswordReset w now env₁ s).2).2
      = .error "Incorrect password" ∧
    loginUser w newPw envL (resetPassword env₁.randomToken newPw now env₂
        (sendPasswordReset w now env₁ s).2).2
      = .ok { u with password := hashPassword newPw,
                     resetPasswordToken := none, resetPasswordExpires := none } := by
  have hu' : (u.username == w) = true := by simp [hu]
  have hfu₁ := findOneAndUpdate_found (fun x => x.username == w)
    (fun x => { x with resetPasswordToken := some env₁.randomToken,
                       resetPasswordExpires := some (now + resetLifetime) })
    l₁ u l₂ hpre hu'
  have hsend : sendPasswordReset w now env₁ s =
      (.emailRecipient u.email,
        { s with users := l₁ ++
            ({ u with resetPasswordToken := some env₁.randomToken,
                      resetPasswordExpires := some (now + resetLifetime) } : User) :: l₂ }) := by
    simp [sendPasswordReset, e1, e2, e3, hs, hfu₁]
  have hpre₂ : ∀ x ∈ l₁, resetTokenLive env₁.randomToken now x = false := by
    intro x hx
    have hx' : x ∈ s.users := by rw [hs]; exact List.mem_append_left _ hx
    simp [resetTokenLive, hfresh x hx']
  have hlive : resetTokenLive env₁.randomToken now
      ({ u with resetPasswordToken := some env₁.randomToken,
                resetPasswordExpires := some (now + resetLifetime) } : User) = true := by
    simp [resetTokenLive, resetLifetime]
  have hfu₂ := findOneAndUpdate_found (resetTokenLive env₁.randomToken now)
    (fun x => { x with password := hashPassword newPw,
                       resetPasswordToken := none, resetPasswordExpires := none })
    l₁
    ({ u with resetPasswordToken := some env₁.randomToken,
              resetPasswordExpires := some (now + resetLifetime) } : User)
    l₂ hpre₂ hlive
  have hreset : resetPassword env₁.randomToken newPw now env₂
      (sendPasswordReset w now env₁ s).2
      = (.ok { u with password := hashPassword newPw,
                      resetPasswordToken := none, resetPasswordExpires := none },
         { s with users := l₁ ++
             ({ u with password := hashPassword newPw,
                       resetPasswordToken := none,
                       resetPasswordExpires := none } : User) :: l₂ }) := by
    rw [hsend]
    simp [resetPassword, e4, e5, hfu₂]
  have hfo : findOne (fun x => x.username == w)
      (l₁ ++ ({ u with password := hashPassword newPw,
                       resetPasswordToken := none,
                       resetPasswordExpires := none } : User) :: l₂)
      = some { u with password := hashPassword newPw,
                      resetPasswordToken := none, resetPasswordExpires := none } := by
    rw [findOne_append_right _ hpre]
    exact findOne_cons_pos _ (by simp [hu])
  have hcmpOld : comparePassword oldPw (hashPassword newPw) = false := by
    rw [comparePassword, beq_eq_false_iff_ne]
    intro h
    exact hne (hashPassword_inj h)
  refine ⟨by rw [hsend], by rw [hreset], ?_, ?_⟩
  · rw [hreset]
    simp [loginUser, e6, e7, hfo, hcmpOld]
  · rw [hreset]
    simp [loginUser, e6, e7, hfo, comparePassword]

/-- Witness for C5: the full reset flow on the demo store, with the old
and the new password checked by login. -/
theorem resetFlow_changesPassword_witness :
    loginUser "fakeUser" "fakepassword" cleanEnv
      (resetPassword cleanEnv.randomToken "newPassword" 1000 cleanEnv
        (sendPasswordReset "fakeUser" 1000 cleanEnv demoState).2).2
      = .error "Incorrect password" ∧
    loginUser "fakeUser" "newPassword" cleanEnv
      (resetPassword cleanEnv.randomToken "newPassword" 1000 cleanEnv
        (sendPasswordReset "fakeUser" 1000 cleanEnv demoState).2).2
      = .ok { demoUser with password := hashPassword "newPassword",
                            resetPasswordToken := none,
                            resetPasswordExpires := none } := by
  have h := resetFlow_changesPassword "fakeUser" "fakepassword" "newPassword"
    1000 cleanEnv cleanEnv cleanEnv [] [] demoUser demoState rfl (by decide)
    rfl rfl (by decide) (by decide) rfl rfl rfl rfl rfl rfl rfl
  exact ⟨h.2.2.1, h.2.2.2⟩

/-- C6: a verification token is single-use.  When the store holds at most
one record with a given token (tokens are random and unique) and one
`saveUser` call succeeds on it, any later `saveUser` with the same token
against the resulting store fails with the token-invalid-or-expired
message when the store is reachable, and in no case can it succeed again:
two activations of one token never both succeed. -/
theorem saveUser_token_singleUse
    (tok : String) (now now₂ : Nat) (env₁ env₂ : Env) (s : AppState) (u : User)
    (hcount : s.unverified.countP (fun r => r.emailVerificationToken == tok) ≤ 1)
    (h₁ : (saveUser tok now env₁ s).1 = .ok u) :
    (env₂.unverifiedDeleteErr = none →
      (saveUser tok now₂ env₂ (saveUser tok now env₁ s).2).1
        = .error "Email verification token is invalid or has expired") ∧
    (∀ u', (saveUser tok now₂ env₂ (saveUser tok now env₁ s).2).1 ≠ .ok u') := by
  rcases hd₁ : env₁.unverifiedDeleteErr with _ | m
  case some => simp [saveUser, hd₁] at h₁
  rcases hfd : findOneAndDelete (verificationTokenLive tok now) s.unverified
    with ⟨res, un'⟩
  rcases res with _ | r
  · simp [saveUser, hd₁, hfd] at h₁
  obtain ⟨m₁, m₂, hsplit, hun', hpr, _⟩ := findOneAndDelete_eq_some hfd
  have hpr' : r.emailVerificationToken = tok ∧ now < r.emailVerificationExpires := by
    simpa [verificationTokenLive] using hpr
  have htokr : (r.emailVerificationToken == tok) = true := by simp [hpr'.1]
  have hzero : ∀ x ∈ un', (x.emailVerificationToken == tok) = false := by
    have hc : (m₁ ++ r :: m₂).countP (fun x => x.emailVerificationToken == tok) ≤ 1 :=
      hsplit ▸ hcount
    rw [List.countP_append,
      List.countP_cons_of_pos (fun x => x.emailVerificationToken == tok) m₂ htokr] at hc
    have hz₁ : m₁.countP (fun x => x.emailVerificationToken == tok) = 0 := by omega
    have hz₂ : m₂.countP (fun x => x.emailVerificationToken == tok) = 0 := by omega
    intro x hx
    rw [hun'] at hx
    rcases List.mem_append.mp hx with hx' | hx'
    · simpa using List.countP_eq_zero.mp hz₁ x hx'
    · simpa using List.countP_eq_zero.mp hz₂ x hx'
  have hnolive : ∀ x ∈ un', verificationTokenLive tok now₂ x = false := by
    intro x hx
    simp [verificationTokenLive, hzero x hx]
  have hfd₂ := findOneAndDelete_eq_none hnolive
  rcases hc₁ : env₁.userCreateErr with _ | m'
  case some => simp [saveUser, hd₁, hfd, hc₁] at h₁
  by_cases hdup : duplicateUser r.username r.email s.users
  · simp [saveUser, hd₁, hfd, hc₁, hdup] at h₁
  · have hstate : (saveUser tok now env₁ s).2 =
        { users := s.users ++
            [{ username := r.username, email := r.email, password := r.password,
               creationDateTime := r.creationDateTime }],
          unverified := un' } := by
      simp [saveUser, hd₁, hfd, hc₁, hdup]
    constructor
    · intro hd₂
      rw [hstate]
      simp [saveUser, hd₂, hfd₂]
    · intro u' hcontra
      rw [hstate] at hcontra
      rcases hd₂ : env₂.unverifiedDeleteErr with _ | m₂'
      · simp [saveUser, hd₂, hfd₂] at hcontra
      · simp [saveUser, hd₂] at hcontra

/-- A pending registration colliding with nothing, for the C6 witness. -/
def pendingFresh : UnverifiedUser :=
  { username := "soloUser", email := "solo@e.com", password := hashPassword "pw",
    creationDateTime := 5, emailVerificationToken := "tokB",
    emailVerificationExpires := 1000 }

/-- Store holding only `pendingFresh`. -/
def singleTokenState : AppState := { users := [], unverified := [pendingFresh] }

/-- Witness for C6: the token "tokB" is consumed once successfully, and a
second activation with it fails with the token-invalid message. -/
theorem saveUser_token_singleUse_witness :
    (saveUser "tokB" 900 cleanEnv (saveUser "tokB" 500 cleanEnv singleTokenState).2).1
      = .error "Email verification token is invalid or has expired" :=
  (saveUser_token_singleUse "tokB" 500 900 cleanEnv cleanEnv singleTokenState
    { username := "soloUser", email := "solo@e.com", password := hashPassword "pw",
      creationDateTime := 5 }
    (by decide) (by decide)).1 rfl

/-- C7: `findOrSaveGoogleUser` is idempotent in the Google identity: when
a User with the given Google identity already exists it is returned with
the store unchanged; and whenever a call succeeds with some User `u`, a
second call with the same identity against the resulting store returns
the same `u` and leaves the store as it was — so two calls return the
same User both times and create at most one record. -/
theorem findOrSaveGoogleUser_idempotent
    (gid em : String) (now₁ now₂ : Nat) (env₁ env₂ : Env) (s : AppState)
    (u : User) (hfind₂ : env₂.userFindErr = none) :
    (env₁.userFindErr = none →
      ∀ v, findOne (fun x => x.googleId == some gid) s.users = some v →
        findOrSaveGoogleUser gid em now₁ env₁ s = (.ok v, s)) ∧
    ((findOrSaveGoogleUser gid em now₁ env₁ s).1 = .ok u →
      findOrSaveGoogleUser gid em now₂ env₂
          (findOrSaveGoogleUser gid em now₁ env₁ s).2
        = (.ok u, (findOrSaveGoogleUser gid em now₁ env₁ s).2)) := by
  constructor
  · intro h1 v hv
    simp [findOrSaveGoogleUser, h1, hv]
  · intro h₁
    rcases hf₁ : env₁.userFindErr with _ | m
    case some => simp [findOrSaveGoogleUser, hf₁] at h₁
    rcases hfo : findOne (fun x => x.googleId == some gid) s.users with _ | v
    · rcases hr : env₁.randomErr with _ | m
      case some => simp [findOrSaveGoogleUser, hf₁, hfo, hr] at h₁
      rcases hdg : env₁.digestErr with _ | m
      case some => simp [findOrSaveGoogleUser, hf₁, hfo, hr, hdg] at h₁
      rcases hcr : env₁.userCreateErr with _ | m
      case some => simp [findOrSaveGoogleUser, hf₁, hfo, hr, hdg, hcr] at h₁
      by_cases hdup : duplicateUser (localPart em ++ "_" ++ shortDiscriminator env₁.digest) em
        s.users
      · simp [findOrSaveGoogleUser, hf₁, hfo, hr, hdg, hcr, hdup] at h₁
      · have hfirst : findOrSaveGoogleUser gid em now₁ env₁ s =
            (.ok { username := localPart em ++ "_" ++ shortDiscriminator env₁.digest,
                   email := em, password := env₁.randomToken,
                   creationDateTime := now₁, googleId := some gid },
             { s with users := s.users ++
                 [{ username := localPart em ++ "_" ++ shortDiscriminator env₁.digest,
                    email := em, password := env₁.randomToken,
                    creationDateTime := now₁, googleId := some gid }] }) := by
          simp [findOrSaveGoogleUser, hf₁, hfo, hr, hdg, hcr, hdup]
        rw [hfirst] at h₁ ⊢
        obtain rfl : _ = u := UserResponse.ok.inj h₁
        have hnone : ∀ x ∈ s.users, (x.googleId == some gid) = false := by
          intro x hx
          have := List.find?_eq_none.mp hfo x hx
          simpa using this
        have hfo₂ : findOne (fun x => x.googleId == some gid)
            (s.users ++ [{ username := localPart em ++ "_" ++ shortDiscriminator env₁.digest,
                           email := em, password := env₁.randomToken,
                           creationDateTime := now₁, googleId := some gid }])
            = some { username := localPart em ++ "_" ++ shortDiscriminator env₁.digest,
                     email := em, password := env₁.randomToken,
                     creationDateTime := now₁, googleId := some gid } := by
          rw [findOne_append_right _ hnone]
          exact findOne_cons_pos _ (by simp)
        simp [findOrSaveGoogleUser, hfind₂, hfo₂]
    · have hfirst : findOrSaveGoogleUser gid em now₁ env₁ s = (.ok v, s) := by
        simp [findOrSaveGoogleUser, hf₁, hfo]
      rw [hfirst] at h₁ ⊢
      obtain rfl : v = u := UserResponse.ok.inj h₁
      simp [findOrSaveGoogleUser, hfind₂, hfo]

/-- An empty store for the C7 witness. -/
def emptyState : AppState := { users := [], unverified := [] }

/-- Witness for C7: the first call on the empty store creates the Google
user, the second call returns the very same User with the store as the
first call left it. -/
theorem findOrSaveGoogleUser_idempotent_witness :
    findOrSaveGoogleUser "12345" "fakeEmail@email.com" 9 cleanEnv
        (findOrSaveGoogleUser "12345" "fakeEmail@email.com" 7 cleanEnv emptyState).2
      = (.ok { username := "fakeEmail_012345", email := "fakeEmail@email.com",
               password := "cafebabe", creationDateTime := 7,
               googleId := some "12345" },
         (findOrSaveGoogleUser "12345" "fakeEmail@email.com" 7 cleanEnv
           emptyState).2) :=
  (findOrSaveGoogleUser_idempotent "12345" "fakeEmail@email.com" 7 9 cleanEnv
    cleanEnv emptyState
    { username := "fakeEmail_012345", email := "fakeEmail@email.com",
      password := "cafebabe", creationDateTime := 7, googleId := some "12345" }
    rfl).2 (by decide)

end UserOps
